import Mathlib

/-!
# Verification of the blood-donation-app server against its specification

Shallow embedding of `src/server.js`. The file contains two Express/MongoDB
server variants concatenated: the "first" variant (lines 1-337) and the
"secured" variant (lines 338-731). MongoDB collections are modelled as Lean
lists in insertion (natural) order; `insertOne` appends, `findOne`/`updateOne`/
`deleteOne` act on the first match, `find(q).skip(s).limit(l)` is filter,
drop, take (with MongoDB's `limit(0)` meaning "no limit"). HTTP handlers
become pure functions from their inputs (decoded token claims, request body,
query parameters, external-provider state, current store) to a response value
plus the new store. `new Date()` timestamps are passed in as a parameter.
-/

namespace BloodApp

/-- Claims carried by a session JWT. The secured variant's POST /jwt signs
`{ email, name }` (server.js line 468). -/
structure Claims where
  email : String
  name : String
deriving DecidableEq, Repr

/-- A document of the `users` collection, as created by POST /users
(server.js lines 107-117): profile fields plus `role` and `status`. -/
structure User where
  email : String
  name : String
  avatar : String
  bloodGroup : String
  district : String
  upazila : String
  role : String
  status : String
  createdAt : Nat
deriving DecidableEq, Repr

/-- A document of the `donationRequests` collection. `id` models the MongoDB
`_id`. `donorName`/`donorEmail` are absent (`none`) until the donate action
sets them. -/
structure DonationRequest where
  id : Nat
  requesterEmail : String
  bloodGroup : String
  district : String
  upazila : String
  status : String
  donorName : Option String
  donorEmail : Option String
  createdAt : Nat
deriving DecidableEq, Repr

/-- A document of the `funds` collection. The secured POST /funds stores
`{ ...req.body, email, amount, createdAt }` (line 696); the first variant
stores the named fields only (lines 299-305). `transactionId` is optional
because the first variant copies whatever the body held. -/
structure Fund where
  userName : Option String
  email : String
  amount : ℚ
  transactionId : Option String
  createdAt : Nat
deriving DecidableEq, Repr

/-- The JSON body of a POST /funds request. `amount` is the numeric value
`Number(req.body.amount)` evaluates to; `email` is a client-supplied field
that the handlers override. -/
structure FundBody where
  userName : Option String
  email : Option String
  amount : ℚ
  transactionId : Option String
deriving DecidableEq, Repr

/-! ## MongoDB primitives -/

/-- `updateOne(filter, {$set: ...})`: apply `f` to the first element
satisfying `p`, leave the rest unchanged. -/
def updateFirst (p : α → Bool) (f : α → α) : List α → List α
  | [] => []
  | x :: xs => if p x then f x :: xs else x :: updateFirst p f xs

/-- `deleteOne(filter)`: remove the first element satisfying `p`. -/
def deleteFirst (p : α → Bool) : List α → List α
  | [] => []
  | x :: xs => if p x then xs else x :: deleteFirst p xs

/-- MongoDB `limit(l)`: `limit(0)` means no limit. -/
def mongoLimit (l : Nat) (xs : List α) : List α :=
  if l = 0 then xs else xs.take l

/-! ## External payment provider (Stripe)

The secured POST /funds retrieves either a checkout session (ids starting
with `cs_`) or a payment intent. We model the provider as two partial maps
from id to the (payment status, minor-unit amount) pair that
`stripe.checkout.sessions.retrieve` / `stripe.paymentIntents.retrieve`
would report; `none` models the retrieve call throwing (unknown id), which
the handler's `catch` turns into a 500. -/
structure Provider where
  sessions : String → Option (String × ℤ)
  intents : String → Option (String × ℤ)

/-- `transactionId.startsWith("cs_")` (server.js line 671), written over the
character list so that it evaluates by kernel reduction. -/
def startsWithCs (t : String) : Bool :=
  match t.data with
  | 'c' :: 's' :: '_' :: _ => true
  | _ => false

/-- The provider record the handler consults for transaction id `t`
(server.js lines 671-685): checkout session for `cs_` ids, payment intent
otherwise. -/
def stripeLookup (prov : Provider) (t : String) : Option (String × ℤ) :=
  if startsWithCs t then prov.sessions t else prov.intents t

/-- Whether the retrieved object counts as paid: `payment_status === 'paid'`
for sessions, `status === 'succeeded'` for intents. -/
def isPaidFlag (t : String) (st : String) : Bool :=
  if startsWithCs t then st == "paid" else st == "succeeded"

/-- `Math.round(x)` of JavaScript on an exact rational: half-up rounding
(toward +infinity on ties). -/
def jsRound (x : ℚ) : ℤ := Int.floor (x + 1 / 2)

/-! ## POST /funds -/

/-- Response of the secured POST /funds handler (lines 653-703). -/
inductive FundsResp
  | missingTx
  | duplicateTx
  | notPaid
  | amountMismatch
  | bankError
  | created
deriving DecidableEq, Repr

/-- HTTP status of each secured POST /funds response: 400 "Transaction ID
required", 409 duplicate, 400 not paid, 400 mismatch, 500 verify failure,
200 on `res.send(insert result)`. -/
def FundsResp.statusCode : FundsResp → Nat
  | .missingTx => 400
  | .duplicateTx => 409
  | .notPaid => 400
  | .amountMismatch => 400
  | .bankError => 500
  | .created => 200

/-- Outcome of a POST /funds call on the secured variant: the response, the
new funds collection, and how many retrieve calls reached the provider. -/
structure FundsOutcome where
  resp : FundsResp
  funds : List Fund
  providerCalls : Nat
deriving DecidableEq, Repr

/-- Secured variant POST /funds (server.js lines 653-703): require a
transaction id (JS falsy check: absent or empty string fails), idempotency
check before any provider call, then provider verification, the
`Math.round(Number(amount) * 100)` amount comparison, and only then the
insert of `{ ...req.body, email: req.decoded.email, amount, createdAt }`. -/
def securedFundsHandler (prov : Provider) (tok : Claims) (body : FundBody)
    (now : Nat) (funds : List Fund) : FundsOutcome :=
  match body.transactionId with
  | none => ⟨.missingTx, funds, 0⟩
  | some t =>
    if t = "" then ⟨.missingTx, funds, 0⟩
    else if funds.any (fun f => f.transactionId == some t) then
      ⟨.duplicateTx, funds, 0⟩
    else
      match stripeLookup prov t with
      | none => ⟨.bankError, funds, 1⟩
      | some (st, amt) =>
        if isPaidFlag t st then
          if amt = jsRound (body.amount * 100) then
            ⟨.created,
              funds ++ [{ userName := body.userName, email := tok.email,
                          amount := body.amount, transactionId := some t,
                          createdAt := now }], 1⟩
          else ⟨.amountMismatch, funds, 1⟩
        else ⟨.notPaid, funds, 1⟩

/-- First variant POST /funds (server.js lines 298-309): no idempotency
check, no provider verification; it unconditionally inserts
`{ userName, email: req.decoded.email, amount: Number(req.body.amount),
transactionId, createdAt }` and replies 201. The handler never consults the
provider, so the new collection is the whole outcome. -/
def firstFundsHandler (tok : Claims) (body : FundBody) (now : Nat)
    (funds : List Fund) : List Fund :=
  funds ++ [{ userName := body.userName, email := tok.email,
              amount := body.amount, transactionId := body.transactionId,
              createdAt := now }]

/-! ## PUT /users/profile -/

/-- The JSON body of a PUT /users/profile request. Each field is `none`
when the client omitted it. Both handler variants copy the whole body,
then `delete updateData.email; delete updateData._id` — nothing else is
stripped, so `role` and `status` keys pass through to `$set`. -/
structure ProfileBody where
  name : Option String
  avatar : Option String
  bloodGroup : Option String
  district : Option String
  upazila : Option String
  email : Option String
  role : Option String
  status : Option String
deriving DecidableEq, Repr

/-- The `$set` update document built by PUT /users/profile (both variants,
server.js lines 134-144 and 495-500): every body field except the deleted
`email` (and `_id`) is written onto the user document. -/
def applyProfileSet (b : ProfileBody) (u : User) : User :=
  { u with
    name := b.name.getD u.name
    avatar := b.avatar.getD u.avatar
    bloodGroup := b.bloodGroup.getD u.bloodGroup
    district := b.district.getD u.district
    upazila := b.upazila.getD u.upazila
    role := b.role.getD u.role
    status := b.status.getD u.status }

/-- PUT /users/profile: `updateOne({ email: req.decoded.email },
{ $set: updateData })`. Identical in both variants. -/
def putUsersProfile (tokEmail : String) (body : ProfileBody)
    (users : List User) : List User :=
  updateFirst (fun u => u.email == tokEmail) (applyProfileSet body) users

/-! ## Session-token verification (verifyJWT middleware) -/

/-- Outcome of the verifyJWT middleware (server.js lines 54-64 and
389-399): missing header, failed `jwt.verify`, or decoded claims. -/
inductive AuthOutcome
  | unauthorized
  | forbidden
  | proceed (c : Claims)
deriving DecidableEq, Repr

/-- HTTP status each middleware outcome sends: 401 "Unauthorized" for a
missing header, 403 "Forbidden" when `jwt.verify` errs; 200 stands for
"continue to the handler". -/
def AuthOutcome.statusCode : AuthOutcome → Nat
  | .unauthorized => 401
  | .forbidden => 403
  | .proceed _ => 200

/-- JavaScript `header.split(" ")`: split at every single space character
(empty pieces kept), over the character list. -/
def splitSpaces (acc : List Char) : List Char → List (List Char)
  | [] => [acc.reverse]
  | ' ' :: rest => acc.reverse :: splitSpaces [] rest
  | c :: rest => splitSpaces (c :: acc) rest

/-- `authHeader.split(" ")[1]` (server.js line 58): the second piece, or
`none` when the header has no space (JS `undefined`). -/
def extractToken (h : String) : Option String :=
  ((splitSpaces [] h.data).get? 1).map fun cs => String.mk cs

/-- The verifyJWT middleware. `check` is the external
`jwt.verify(token, JWT_SECRET)`: `none` models every verification error
(malformed, expired, invalid signature); `jwt.verify(undefined)` also
errs, covered by the `extractToken` mismatch branch. -/
def verifyJWT (authHeader : Option String) (check : String → Option Claims) :
    AuthOutcome :=
  match authHeader with
  | none => .unauthorized
  | some h =>
    match extractToken h with
    | none => .forbidden
    | some t =>
      match check t with
      | none => .forbidden
      | some c => .proceed c

/-- The requireRole middleware's denial message (server.js line 73). -/
def accessDeniedMsg : String := "Access denied"

/-- The verifyJWT middleware's denial message for a failed verification
(server.js line 60). -/
def forbiddenMsg : String := "Forbidden"

/-! ## POST /donation-requests -/

/-- The client body of a POST /donation-requests call; the handler spreads
it and then overrides `requesterEmail`, `status` and `createdAt`, so only
the profile-like fields of the body survive. -/
structure DRBody where
  bloodGroup : String
  district : String
  upazila : String
deriving DecidableEq, Repr

/-- Response of POST /donation-requests (both variants, server.js lines
173-186 and 511-516). `lookupFailed` models the crash when
`usersCollection.findOne` returns no document (the handler dereferences
`user.status` unconditionally). -/
inductive CreateDRResult
  | blocked
  | created
  | lookupFailed
deriving DecidableEq, Repr

/-- HTTP status of each POST /donation-requests outcome: 403 "User
blocked", 201 on insert, 500 for the null dereference. -/
def CreateDRResult.statusCode : CreateDRResult → Nat
  | .blocked => 403
  | .created => 201
  | .lookupFailed => 500

/-- Body of the response: the blocked branch sends `{ message: "User
blocked" }` (server.js lines 175 and 513). -/
def CreateDRResult.message : CreateDRResult → String
  | .blocked => "User blocked"
  | .created => ""
  | .lookupFailed => "Server error"

/-- POST /donation-requests: look the caller up, reject blocked users,
otherwise insert `{ ...req.body, requesterEmail: req.decoded.email,
status: "pending", createdAt }`. `nid` is the `_id` MongoDB assigns. -/
def postDonationRequest (users : List User) (tok : Claims) (body : DRBody)
    (now nid : Nat) (drs : List DonationRequest) :
    CreateDRResult × List DonationRequest :=
  match users.find? (fun u => u.email == tok.email) with
  | none => (.lookupFailed, drs)
  | some u =>
    if u.status == "blocked" then (.blocked, drs)
    else
      (.created,
        drs ++ [{ id := nid, requesterEmail := tok.email,
                  bloodGroup := body.bloodGroup, district := body.district,
                  upazila := body.upazila, status := "pending",
                  donorName := none, donorEmail := none, createdAt := now }])

/-! ## PATCH /donation-requests/donate/:id and DELETE /donation-requests/:id -/

/-- The `$set` document of the secured variant's PATCH
/donation-requests/donate/:id (server.js lines 568-572): status
"inprogress", donorName and donorEmail from the decoded token. -/
def donateSet (tok : Claims) (r : DonationRequest) : DonationRequest :=
  { r with
    status := "inprogress"
    donorName := some tok.name
    donorEmail := some tok.email }

/-- The donate handler itself: `updateOne({_id}, { $set: ... })`. -/
def donateDonationRequest (tok : Claims) (idv : Nat)
    (drs : List DonationRequest) : List DonationRequest :=
  updateFirst (fun r => r.id == idv) (donateSet tok) drs

/-- DELETE /donation-requests/:id (both variants, server.js lines 276-280
and 603-605): `deleteOne({_id})`. The decoded token is in scope but the
handler never consults it, nor the users collection. -/
def deleteDonationRequest (tok : Claims) (idv : Nat)
    (drs : List DonationRequest) : List DonationRequest :=
  deleteFirst (fun r => r.id == idv) drs

/-! ## Paginated list endpoints -/

/-- What a list endpoint sends: either a bare JSON array, or an object
that also carries the filtered set's total count. -/
inductive ListResp (α : Type)
  | bare (items : List α)
  | withTotal (items : List α) (total : Nat)
deriving DecidableEq, Repr

/-- Whether the response carries a total count. -/
def ListResp.hasTotal : ListResp α → Bool
  | .bare _ => false
  | .withTotal _ _ => true

/-- The page of records in the response. -/
def ListResp.items : ListResp α → List α
  | .bare l => l
  | .withTotal l _ => l

/-- The total count in the response, when present. -/
def ListResp.totalCount : ListResp α → Option Nat
  | .bare _ => none
  | .withTotal _ t => some t

/-- The MongoDB query `status ? { status } : {}`: exact-match filter on the
status field when the query parameter is present. -/
def statusFilter (status : Option String) (get : α → String)
    (xs : List α) : List α :=
  match status with
  | none => xs
  | some s => xs.filter (fun x => get x == s)

/-- `find(query).skip((page - 1) * limit).limit(limit)` over the filtered
set in natural (insertion) order. -/
def mongoPage (page limit : Nat) (xs : List α) : List α :=
  mongoLimit limit (xs.drop ((page - 1) * limit))

/-- Secured variant GET /users (server.js lines 482-489): admin list,
returning the page plus `total = countDocuments(query)`. -/
def getUsersSecured (status : Option String) (page limit : Nat)
    (users : List User) : ListResp User :=
  let q := statusFilter status User.status users
  .withTotal (mongoPage page limit q) q.length

/-- First variant GET /donation-requests (server.js lines 222-233):
admin/volunteer list; it sends the page as a bare array and computes no
count. -/
def getDonationRequestsFirst (status : Option String) (page limit : Nat)
    (drs : List DonationRequest) : ListResp DonationRequest :=
  .bare (mongoPage page limit (statusFilter status DonationRequest.status drs))

/-! ## GET /donation-requests/search

The handler builds `new RegExp(q, "i")` and filters pending requests by
`$or` over bloodGroup/district/upazila. We embed the regex fragment the
queries of interest exercise: literal characters and the `+` (one or more)
quantifier, matched case-insensitively anywhere in the field, as a MongoDB
regex condition does. -/

/-- A compiled regex token: a literal character or `c+`. -/
inductive RTok
  | lit (c : Char)
  | plus (c : Char)
deriving DecidableEq, Repr

/-- `new RegExp(q, "i")` for the embedded fragment: a character followed
by `+` compiles to a one-or-more token, any other character to a literal. -/
def parseToks : List Char → List RTok
  | [] => []
  | [c] => [.lit c]
  | c :: d :: rest =>
    if d = '+' then .plus c :: parseToks rest
    else .lit c :: parseToks (d :: rest)

/-- Case-insensitive character comparison (the `i` flag). -/
def charEqI (c d : Char) : Bool := c.toLower == d.toLower

/-- Match a token sequence against a prefix of the text. -/
def matchSeq : List RTok → List Char → Bool
  | [], _ => true
  | _ :: _, [] => false
  | .lit c :: ts, d :: ds => charEqI c d && matchSeq ts ds
  | .plus c :: ts, d :: ds =>
    charEqI c d && (matchSeq ts ds || matchSeq (.plus c :: ts) ds)

/-- Regex search: try a match at every position of the text. -/
def searchFrom (ts : List RTok) : List Char → Bool
  | [] => matchSeq ts []
  | d :: ds => matchSeq ts (d :: ds) || searchFrom ts ds

/-- `searchRegex.test`-style field condition: the compiled query matches
somewhere in the field value. -/
def rTest (q : String) (s : String) : Bool :=
  searchFrom (parseToks q.data) s.data

/-- GET /donation-requests/search (both variants, server.js lines 193-220
and 522-530): with no (or an empty, hence falsy) `q`, all pending
requests; otherwise pending requests matching the case-insensitive regex
on bloodGroup, district or upazila. -/
def searchDonationRequests (q : Option String)
    (drs : List DonationRequest) : List DonationRequest :=
  match q with
  | none => drs.filter (fun r => r.status == "pending")
  | some qs =>
    if qs = "" then drs.filter (fun r => r.status == "pending")
    else
      drs.filter (fun r => r.status == "pending" &&
        (rTest qs r.bloodGroup || rTest qs r.district || rTest qs r.upazila))

/-! ## Case-insensitive substring containment (the spec's wording) -/

/-- `leads p s`: `p` is a prefix of `s` (spec-side notion, used to define
substring containment). -/
def leads : List Char → List Char → Bool
  | [], _ => true
  | _ :: _, [] => false
  | a :: as, b :: bs => a == b && leads as bs

/-- `hasSub p s`: `p` occurs as a contiguous substring of `s`. -/
def hasSub (p : List Char) : List Char → Bool
  | [] => p.isEmpty
  | c :: cs => leads p (c :: cs) || hasSub p cs

/-- The specification's search notion: `pat` occurs in `s` as a
case-insensitive substring. -/
def substrI (pat s : String) : Bool :=
  hasSub (pat.data.map Char.toLower) (s.data.map Char.toLower)

/-- Query characters that are plain both for the embedded regex fragment
and for a JavaScript `RegExp`: alphanumerics, spaces and hyphens carry no
metacharacter meaning. -/
def plainChar (c : Char) : Bool := c.isAlphanum || c == ' ' || c == '-'

/-! ## Concrete sample data (for witnesses and counterexamples) -/

/-- A contributor's session claims. -/
def sampleClaims : Claims := ⟨"alice@x", "Alice"⟩

/-- A fund already on record, with transaction id `tx_1`. -/
def sampleFund : Fund := ⟨some "Bob", "bob@x", 500, some "tx_1", 3⟩

/-- A resubmission of transaction `tx_1` with a different amount. -/
def sampleDupBody : FundBody := ⟨some "Alice", none, 999, some "tx_1"⟩

/-- A provider that confirms checkout session `cs_1` as paid with 999
minor units. -/
def sampleProvider : Provider :=
  ⟨fun t => if t = "cs_1" then some ("paid", 999) else none, fun _ => none⟩

/-- A fresh submission claiming amount 500 for checkout session `cs_1`. -/
def sampleFreshBody : FundBody := ⟨some "Alice", none, 500, some "cs_1"⟩

/-- An active donor. -/
def sampleUser : User :=
  ⟨"u@x", "U", "av", "A+", "Dhaka", "Savar", "donor", "active", 0⟩

/-- A blocked user with Bob's email. -/
def sampleBlockedUser : User :=
  ⟨"bob@x", "Bob", "av", "B+", "Dhaka", "Savar", "donor", "blocked", 0⟩

/-- A profile-update body that only tries to set `role` to admin. -/
def sampleEscalationBody : ProfileBody :=
  ⟨none, none, none, none, none, none, some "admin", none⟩

/-- A donation request owned by `a@x`. -/
def sampleRequest : DonationRequest :=
  ⟨1, "a@x", "O-", "Dhaka", "Savar", "pending", none, none, 0⟩

/-- A pending request whose fields contain no occurrence of the text
`B+`. -/
def sampleSearchRequest : DonationRequest :=
  ⟨2, "r@x", "AB-", "Dhaka", "Savar", "pending", none, none, 0⟩

/-- Fifteen pending donation requests, ids 0 through 14, in creation
order. -/
def sampleRequests : List DonationRequest :=
  (List.range 15).map fun i =>
    ⟨i, "r@x", "A+", "Dhaka", "Savar", "pending", none, none, i⟩

/-- Three registered users. -/
def sampleUsers : List User :=
  [sampleUser, sampleBlockedUser,
   ⟨"c@x", "C", "av", "O+", "Dhaka", "Savar", "admin", "active", 2⟩]

/-! # Theorems settling the claims -/

/-- `Math.round(500 * 100) = 50000`: evaluation of the rounding at the
concrete sample amount. -/
theorem jsRound_sample : jsRound ((500 : ℚ) * 100) = 50000 := by
  norm_num [jsRound]

/-- C1 counterexample: the first variant's POST /funds records a second
Fund for an already-recorded transactionId `tx_1` (and with a different
amount), instead of failing with DuplicateTransaction. -/
theorem C1_first_variant_records_duplicate :
    ([sampleFund].any (fun f => f.transactionId == some "tx_1")) = true ∧
    firstFundsHandler sampleClaims sampleDupBody 7 [sampleFund] =
      [sampleFund, ⟨some "Alice", "alice@x", 999, some "tx_1", 7⟩] := by
  constructor
  · decide
  · decide

/-- C1 (amended to the secured variant): a POST /funds submission whose
transactionId is already on record fails with the duplicate-transaction
response (HTTP 409), the funds collection is unchanged, and the payment
provider is never called, regardless of the amount supplied. -/
theorem C1_secured_duplicate_rejected
    (prov : Provider) (tok : Claims) (body : FundBody) (now : Nat)
    (funds : List Fund) (t : String)
    (hb : body.transactionId = some t) (ht : t ≠ "")
    (hdup : funds.any (fun f => f.transactionId == some t) = true) :
    securedFundsHandler prov tok body now funds =
      ⟨.duplicateTx, funds, 0⟩ ∧ FundsResp.duplicateTx.statusCode = 409 := by
  refine ⟨?_, rfl⟩
  simp [securedFundsHandler, hb, ht, hdup]

/-- C1 witness: the secured handler at a concrete duplicate submission. -/
theorem C1_witness :
    securedFundsHandler sampleProvider sampleClaims sampleDupBody 7 [sampleFund] =
      ⟨.duplicateTx, [sampleFund], 0⟩ ∧ FundsResp.duplicateTx.statusCode = 409 :=
  C1_secured_duplicate_rejected sampleProvider sampleClaims sampleDupBody 7
    [sampleFund] "tx_1" rfl (by decide) (by decide)

/-- C2: on the secured POST /funds, past the idempotency check, (a) the
funds collection changes only when the provider-verified paid amount
equals `Math.round(amount * 100)`, and (b) whenever the provider reports
the payment as paid but the verified amount differs from the converted
claimed amount, the handler answers with the amount-mismatch response
(HTTP 400) and the collection is unchanged. -/
theorem C2_amount_check
    (prov : Provider) (tok : Claims) (body : FundBody) (now : Nat)
    (funds : List Fund) (t : String)
    (hb : body.transactionId = some t) (ht : t ≠ "")
    (hnd : funds.any (fun f => f.transactionId == some t) = false) :
    ((securedFundsHandler prov tok body now funds).funds ≠ funds →
      ∃ st amt, stripeLookup prov t = some (st, amt) ∧
        isPaidFlag t st = true ∧ amt = jsRound (body.amount * 100)) ∧
    (∀ st amt, stripeLookup prov t = some (st, amt) →
      isPaidFlag t st = true → amt ≠ jsRound (body.amount * 100) →
      securedFundsHandler prov tok body now funds =
        ⟨.amountMismatch, funds, 1⟩ ∧
        FundsResp.amountMismatch.statusCode = 400) := by
  constructor
  · intro hne
    rcases hl : stripeLookup prov t with _ | ⟨st, amt⟩
    · exfalso
      apply hne
      simp [securedFundsHandler, hb, ht, hnd, hl]
    · by_cases hp : isPaidFlag t st = true
      · by_cases ha : amt = jsRound (body.amount * 100)
        · exact ⟨st, amt, rfl, hp, ha⟩
        · exfalso
          apply hne
          simp [securedFundsHandler, hb, ht, hnd, hl, hp, ha]
      · exfalso
        apply hne
        simp [securedFundsHandler, hb, ht, hnd, hl, hp]
  · intro st amt hl hp ha
    refine ⟨?_, rfl⟩
    simp [securedFundsHandler, hb, ht, hnd, hl, hp, ha]

/-- C2 witness: provider says `cs_1` was paid 999 minor units, the client
claims amount 500 (50000 minor units): mismatch, nothing recorded. -/
theorem C2_witness :
    securedFundsHandler sampleProvider sampleClaims sampleFreshBody 7 [] =
      ⟨.amountMismatch, [], 1⟩ ∧ FundsResp.amountMismatch.statusCode = 400 :=
  (C2_amount_check sampleProvider sampleClaims sampleFreshBody 7 [] "cs_1"
      rfl (by decide) (by decide)).2 "paid" 999 (by decide)
    (by decide) (by simp [sampleFreshBody, jsRound_sample])

/-- C3: on both POST /funds variants, every Fund the handler appends is
stamped with the session token's email, and the handler's entire outcome
is unchanged when the client-supplied `email` body field is replaced by
any other value. -/
theorem C3_fund_email_from_token
    (prov : Provider) (tok : Claims) (body : FundBody)
    (e : Option String) (now : Nat) (funds : List Fund) :
    (((securedFundsHandler prov tok body now funds).funds.drop
        funds.length).all (fun f => f.email == tok.email)) = true ∧
    securedFundsHandler prov tok { body with email := e } now funds =
      securedFundsHandler prov tok body now funds ∧
    (((firstFundsHandler tok body now funds).drop funds.length).all
      (fun f => f.email == tok.email)) = true ∧
    firstFundsHandler tok { body with email := e } now funds =
      firstFundsHandler tok body now funds := by
  obtain ⟨un, em, am, tx⟩ := body
  refine ⟨?_, rfl, ?_, rfl⟩
  · rcases tx with _ | t
    · simp [securedFundsHandler]
    · by_cases ht : t = ""
      · simp [securedFundsHandler, ht]
      · by_cases hd : funds.any (fun f => f.transactionId == some t) = true
        · simp [securedFundsHandler, ht, hd]
        · rcases hl : stripeLookup prov t with _ | ⟨st, amt⟩
          · simp [securedFundsHandler, ht, hd, hl]
          · by_cases hp : isPaidFlag t st = true
            · by_cases ha : amt = jsRound (am * 100)
              · simp [securedFundsHandler, ht, hd, hl, hp, ha,
                      List.drop_left]
              · simp [securedFundsHandler, ht, hd, hl, hp, ha]
            · simp [securedFundsHandler, ht, hd, hl, hp]
  · simp [firstFundsHandler, List.drop_left]

/-- C4 (code bug): PUT /users/profile strips only `email` and `_id` from
the body before `$set`, so a body carrying `role` rewrites the caller's
role: an active donor who sends `{ role: "admin" }` becomes an admin. -/
theorem C4_profile_update_escalates_role :
    sampleUser.role = "donor" ∧
    putUsersProfile "u@x" sampleEscalationBody [sampleUser] =
      [⟨"u@x", "U", "av", "A+", "Dhaka", "Savar", "admin", "active", 0⟩] := by
  constructor
  · rfl
  · decide

/-- C5 (code bug): DELETE /donation-requests/:id deletes unconditionally —
the handler never reads the decoded token or the caller's role, so a
caller who is neither the owner (`a@x`) nor an admin removes the record. -/
theorem C5_nonowner_delete_succeeds :
    sampleRequest.requesterEmail = "a@x" ∧
    deleteDonationRequest ⟨"b@y", "B"⟩ 1 [sampleRequest] = [] := by
  constructor
  · rfl
  · decide

/-- C6 counterexample: a present-but-invalid bearer token (the external
verifier rejects it: malformed, expired or bad signature) is answered
with HTTP 403 "Forbidden", not with the 401 the claim states. -/
theorem C6_invalid_token_is_403 :
    verifyJWT (some "Bearer deadbeef") (fun _ => none) =
      AuthOutcome.forbidden ∧
    (verifyJWT (some "Bearer deadbeef") (fun _ => none)).statusCode = 403 := by
  constructor
  · decide
  · decide

/-- C6 (amended): a missing Authorization header fails with 401
"Unauthorized"; a header whose token cannot be extracted or whose
verification errs (malformed, expired, invalid signature) fails with 403
"Forbidden". -/
theorem C6_auth_failure_statuses (check : String → Option Claims) :
    verifyJWT none check = AuthOutcome.unauthorized ∧
    AuthOutcome.unauthorized.statusCode = 401 ∧
    AuthOutcome.forbidden.statusCode = 403 ∧
    (∀ h, extractToken h = none → verifyJWT (some h) check = .forbidden) ∧
    (∀ h t, extractToken h = some t → check t = none →
      verifyJWT (some h) check = .forbidden) := by
  refine ⟨rfl, rfl, rfl, ?_, ?_⟩
  · intro h hh
    simp [verifyJWT, hh]
  · intro h t hh hc
    simp [verifyJWT, hh, hc]

/-- C6 witness: the amended statement at a concrete header and verifier. -/
theorem C6_witness :
    verifyJWT (some "Bearer tok") (fun _ => none) = AuthOutcome.forbidden :=
  (C6_auth_failure_statuses (fun _ => none)).2.2.2.2 "Bearer tok" "tok"
    (by decide) rfl

/-- C7: POST /donation-requests by a blocked user is rejected with the
distinct "User blocked" message (HTTP 403, different from the role-guard
and token denials) and no DonationRequest is inserted. Both variants have
the same guard. -/
theorem C7_blocked_user_rejected
    (users : List User) (tok : Claims) (body : DRBody) (now nid : Nat)
    (drs : List DonationRequest) (u : User)
    (hu : users.find? (fun x => x.email == tok.email) = some u)
    (hb : u.status = "blocked") :
    postDonationRequest users tok body now nid drs =
      (CreateDRResult.blocked, drs) ∧
    CreateDRResult.blocked.statusCode = 403 ∧
    CreateDRResult.blocked.message = "User blocked" ∧
    CreateDRResult.blocked.message ≠ accessDeniedMsg ∧
    CreateDRResult.blocked.message ≠ forbiddenMsg := by
  refine ⟨?_, rfl, rfl, by decide, by decide⟩
  simp [postDonationRequest, hu, hb]

/-- C7 witness: blocked `bob@x` tries to create a request; the store is
untouched. -/
theorem C7_witness :
    postDonationRequest sampleUsers ⟨"bob@x", "Bob"⟩ ⟨"O-", "Dhaka", "Savar"⟩
        9 99 [] = (CreateDRResult.blocked, []) ∧
    CreateDRResult.blocked.statusCode = 403 ∧
    CreateDRResult.blocked.message = "User blocked" ∧
    CreateDRResult.blocked.message ≠ accessDeniedMsg ∧
    CreateDRResult.blocked.message ≠ forbiddenMsg :=
  C7_blocked_user_rejected sampleUsers ⟨"bob@x", "Bob"⟩ ⟨"O-", "Dhaka", "Savar"⟩
    9 99 [] sampleBlockedUser (by decide) rfl

/-- `updateOne` touches one document: the collection size is unchanged. -/
theorem length_updateFirst (p : α → Bool) (f : α → α) (l : List α) :
    (updateFirst p f l).length = l.length := by
  induction l with
  | nil => rfl
  | cons x xs ih =>
    by_cases hx : p x
    · simp [updateFirst, hx]
    · simp [updateFirst, hx, ih]

/-- Looking the first match up again after `updateOne` finds the updated
document, provided the update preserves the filter. -/
theorem find?_updateFirst (p : α → Bool) (f : α → α)
    (hpf : ∀ a, p a = true → p (f a) = true) (l : List α) (a : α)
    (ha : l.find? p = some a) :
    (updateFirst p f l).find? p = some (f a) := by
  induction l with
  | nil => simp at ha
  | cons x xs ih =>
    by_cases hx : p x = true
    · rw [List.find?_cons_of_pos _ hx, Option.some_inj] at ha
      subst ha
      simp only [updateFirst, if_pos hx]
      exact List.find?_cons_of_pos _ (hpf x hx)
    · rw [List.find?_cons_of_neg _ hx] at ha
      simp only [updateFirst, if_neg hx]
      rw [List.find?_cons_of_neg _ hx]
      exact ih ha

/-- C8: for any authenticated caller and any existing DonationRequest,
the donate action leaves the collection size unchanged and the targeted
request afterwards has status "inprogress", donorEmail the caller's token
email and donorName the caller's token name. -/
theorem C8_donate_claims_request
    (tok : Claims) (idv : Nat) (drs : List DonationRequest)
    (r : DonationRequest)
    (hr : drs.find? (fun x => x.id == idv) = some r) :
    (donateDonationRequest tok idv drs).length = drs.length ∧
    (donateDonationRequest tok idv drs).find? (fun x => x.id == idv) =
      some (donateSet tok r) ∧
    (donateSet tok r).status = "inprogress" ∧
    (donateSet tok r).donorEmail = some tok.email ∧
    (donateSet tok r).donorName = some tok.name := by
  refine ⟨length_updateFirst _ _ _, ?_, rfl, rfl, rfl⟩
  exact find?_updateFirst (fun x => x.id == idv) (donateSet tok) (fun a ha => ha) drs r hr

/-- C8 witness: Alice claims the pending request with id 1. -/
theorem C8_witness :
    (donateDonationRequest sampleClaims 1 [sampleRequest]).length = 1 ∧
    (donateDonationRequest sampleClaims 1 [sampleRequest]).find?
        (fun x => x.id == 1) = some (donateSet sampleClaims sampleRequest) ∧
    (donateSet sampleClaims sampleRequest).status = "inprogress" ∧
    (donateSet sampleClaims sampleRequest).donorEmail = some "alice@x" ∧
    (donateSet sampleClaims sampleRequest).donorName = some "Alice" :=
  C8_donate_claims_request sampleClaims 1 [sampleRequest] sampleRequest
    (by decide)

/-- C9 counterexample: page 2 with limit 10 over 15 matching records on
the first variant's GET /donation-requests returns the right 5 records
but a bare array: no total count of the filtered set is in the response. -/
theorem C9_counterexample :
    sampleRequests.length = 15 ∧
    (getDonationRequestsFirst none 2 10 sampleRequests).hasTotal = false ∧
    ((getDonationRequestsFirst none 2 10 sampleRequests).items).length = 5 := by
  refine ⟨by decide, rfl, by decide⟩

/-- C9 (amended): with 1-based page `p` and a nonzero limit `l`, each
cited list endpoint returns exactly the records of the status-filtered
set at offsets `(p-1)*l` through `p*l - 1` (creation order); the secured
GET /users additionally reports the filtered set's total count, while the
first variant's GET /donation-requests sends a bare page with no total. -/
theorem C9_pagination
    (status : Option String) (page limit : Nat) (users : List User)
    (drs : List DonationRequest) (i : Nat)
    (hp : 1 ≤ page) (hl : limit ≠ 0) :
    (getUsersSecured status page limit users).totalCount =
      some (statusFilter status User.status users).length ∧
    ((getUsersSecured status page limit users).items)[i]? =
      (if i < limit
        then (statusFilter status User.status users)[(page - 1) * limit + i]?
        else none) ∧
    (getDonationRequestsFirst status page limit drs).hasTotal = false ∧
    ((getDonationRequestsFirst status page limit drs).items)[i]? =
      (if i < limit
        then (statusFilter status DonationRequest.status
          drs)[(page - 1) * limit + i]?
        else none) := by
  refine ⟨rfl, ?_, rfl, ?_⟩
  · simp only [getUsersSecured, ListResp.items, mongoPage, mongoLimit,
      if_neg hl]
    rw [List.getElem?_take, List.getElem?_drop]
  · simp only [getDonationRequestsFirst, ListResp.items, mongoPage,
      mongoLimit, if_neg hl]
    rw [List.getElem?_take, List.getElem?_drop]

/-- C9 witness: page 1, limit 2 over the three sample users and the
fifteen sample requests. -/
theorem C9_witness :
    (getUsersSecured none 1 2 sampleUsers).totalCount = some 3 ∧
    ((getUsersSecured none 1 2 sampleUsers).items)[1]? =
      some sampleBlockedUser ∧
    (getDonationRequestsFirst none 1 2 sampleRequests).hasTotal = false ∧
    ((getDonationRequestsFirst none 1 2 sampleRequests).items)[1]? =
      some ⟨1, "r@x", "A+", "Dhaka", "Savar", "pending", none, none, 1⟩ :=
  C9_pagination none 1 2 sampleUsers sampleRequests 1 (by decide) (by decide)

/-- The empty pattern occurs in every text. -/
theorem hasSub_nil (xs : List Char) : hasSub [] xs = true := by
  cases xs <;> simp [hasSub, leads, List.isEmpty]

/-- A plain query character is not the `+` metacharacter. -/
theorem plainChar_ne_plus (c : Char) (h : plainChar c = true) : c ≠ '+' := by
  intro hc
  subst hc
  simp [plainChar] at h

/-- A query without `+` compiles to literal tokens only. -/
theorem parseToks_no_plus (l : List Char) (h : ∀ c ∈ l, c ≠ '+') :
    parseToks l = l.map RTok.lit := by
  induction l with
  | nil => rfl
  | cons c rest ih =>
    cases rest with
    | nil => rfl
    | cons d rest2 =>
      have hd : d ≠ '+' := h d (by simp)
      simp only [parseToks, if_neg hd, List.map]
      rw [ih fun x hx => h x (List.mem_cons_of_mem _ hx)]
      simp [List.map]

/-- On literal tokens, anchored matching is case-folded prefix testing. -/
theorem matchSeq_lits (l : List Char) (cs : List Char) :
    matchSeq (l.map RTok.lit) cs =
      leads (l.map Char.toLower) (cs.map Char.toLower) := by
  induction l generalizing cs with
  | nil => cases cs <;> rfl
  | cons a as ih =>
    cases cs with
    | nil => rfl
    | cons b bs => simp [matchSeq, leads, charEqI, ih]

/-- On literal tokens, regex search is case-folded substring containment. -/
theorem searchFrom_lits (l : List Char) (cs : List Char) :
    searchFrom (l.map RTok.lit) cs =
      hasSub (l.map Char.toLower) (cs.map Char.toLower) := by
  induction cs with
  | nil =>
    cases l <;> rfl
  | cons c cs ih =>
    simp only [searchFrom, hasSub, List.map]
    rw [ih, matchSeq_lits]
    simp [List.map]

/-- For metacharacter-free queries the handler's regex condition is
exactly the spec's case-insensitive substring condition. -/
theorem rTest_plain (q s : String) (h : q.data.all plainChar = true) :
    rTest q s = substrI q s := by
  have hplus : ∀ c ∈ q.data, c ≠ '+' := by
    intro c hc
    exact plainChar_ne_plus c (by
      have := List.all_eq_true.mp h c hc
      exact this)
  rw [rTest, parseToks_no_plus q.data hplus, searchFrom_lits]
  rfl

/-- C10 counterexample: searching `B+` (a blood-group query) returns the
pending request whose fields are `AB-`, `Dhaka`, `Savar` — the regex
`/B+/i` finds a `B` — even though `B+` is not a case-insensitive
substring of any of the three fields. -/
theorem C10_counterexample :
    searchDonationRequests (some "B+") [sampleSearchRequest] =
      [sampleSearchRequest] ∧
    substrI "B+" sampleSearchRequest.bloodGroup = false ∧
    substrI "B+" sampleSearchRequest.district = false ∧
    substrI "B+" sampleSearchRequest.upazila = false := by
  refine ⟨by decide, by decide, by decide, by decide⟩

/-- C10 (amended): with `q` absent (or empty, which the handler's falsy
check treats the same) the search returns every pending request; for a
`q` of plain characters (alphanumerics, spaces, hyphens — no regex
metacharacters) it returns exactly the pending requests with `q` as a
case-insensitive substring of bloodGroup, district or upazila. General
queries are matched as a case-insensitive regular expression instead. -/
theorem C10_search (q : String) (drs : List DonationRequest) :
    searchDonationRequests none drs =
      drs.filter (fun r => r.status == "pending") ∧
    searchDonationRequests (some "") drs =
      drs.filter (fun r => r.status == "pending") ∧
    (q.data.all plainChar = true →
      searchDonationRequests (some q) drs =
        drs.filter (fun r => r.status == "pending" &&
          (substrI q r.bloodGroup || substrI q r.district ||
            substrI q r.upazila))) := by
  refine ⟨rfl, rfl, ?_⟩
  intro h
  by_cases hq : q = ""
  · subst hq
    simp only [searchDonationRequests, if_pos rfl]
    apply List.filter_congr
    intro r _
    have hb : substrI "" r.bloodGroup = true := hasSub_nil _
    simp [hb]
  · simp only [searchDonationRequests, if_neg hq]
    apply List.filter_congr
    intro r _
    rw [rTest_plain q _ h, rTest_plain q _ h, rTest_plain q _ h]

/-- C10 witness: the plain query `dha` matches the sample request through
its district `Dhaka`. -/
theorem C10_witness :
    searchDonationRequests (some "dha") [sampleSearchRequest] =
      List.filter (fun r => r.status == "pending" &&
        (substrI "dha" r.bloodGroup || substrI "dha" r.district ||
          substrI "dha" r.upazila)) [sampleSearchRequest] :=
  (C10_search "dha" [sampleSearchRequest]).2.2 (by decide)

end BloodApp
